import Mathlib

/-!
Verification development for the MySchool identity/auth core.

Python strings are modelled as `List Char`; `datetime` values as natural
numbers (seconds); `None`-able columns as `Option`; the SQLAlchemy store as a
`List User`.  Python `str(n)` on naturals is modelled by `natDigits`.
The werkzeug password hash is abstracted as the identity embedding: the hash
check recomputes and compares, and raises when the stored hash is `None`.
-/

namespace MySchool

abbrev Str := List Char

/-- Python `str.lower()` (ASCII range, as exercised by the code). -/
def lowerStr (s : Str) : Str := s.map Char.toLower

/-- Python whitespace recognised by `str.strip()` (ASCII part). -/
def isPySpace (c : Char) : Bool :=
  c = ' ' || c = '\t' || c = '\n' || c = '\r' || c = '\x0b' || c = '\x0c'

/-- Python `str.strip()`. -/
def strip (s : Str) : Str :=
  ((s.dropWhile isPySpace).reverse.dropWhile isPySpace).reverse

/-- Decimal digit character, used to model Python number-to-string rendering. -/
def digitChar : Nat → Char
  | 0 => '0'
  | 1 => '1'
  | 2 => '2'
  | 3 => '3'
  | 4 => '4'
  | 5 => '5'
  | 6 => '6'
  | 7 => '7'
  | 8 => '8'
  | 9 => '9'
  | _ => '*'

/-- Inverse of `digitChar` on decimal digits. -/
def charDigit : Char → Nat
  | '0' => 0
  | '1' => 1
  | '2' => 2
  | '3' => 3
  | '4' => 4
  | '5' => 5
  | '6' => 6
  | '7' => 7
  | '8' => 8
  | '9' => 9
  | _ => 0

/-- Digit-rendering worker, structurally recursive on a fuel bound so that it
evaluates inside the kernel; `fuel > n` always suffices. -/
def natDigitsAux : Nat → Nat → Str
  | 0, _ => []
  | _fuel + 1, n =>
    if n < 10 then [digitChar n]
    else natDigitsAux _fuel (n / 10) ++ [digitChar (n % 10)]

/-- Python `str(n)` for a natural number `n`: decimal digits, no sign. -/
def natDigits (n : Nat) : Str := natDigitsAux (n + 1) n

/-- Python `random.randint lo hi` (inclusive bounds), with the randomness
supplied through `seed`. -/
def randint (lo hi seed : Nat) : Nat := lo + seed % (hi + 1 - lo)

/-! ### validators.py -/

/-- Character class `[a-zA-Z0-9._%+-]` of the email regex local part. -/
def localChar (c : Char) : Bool :=
  c.isAlpha || c.isDigit || c = '.' || c = '_' || c = '%' || c = '+' || c = '-'

/-- Character class `[a-zA-Z0-9.-]` of the email regex domain part. -/
def domainChar (c : Char) : Bool :=
  c.isAlpha || c.isDigit || c = '.' || c = '-'

/-- `validate_email`: full match of `[a-zA-Z0-9._%+-]+@[a-zA-Z0-9.-]+\.[a-zA-Z]` followed
by at least one more letter, anchored at both ends.  The local part is the
segment before the first `@` (no character class contains `@`); the domain
must split at some dot into a nonempty `domainChar` prefix and an all-letter
top-level part of length at least 2 reaching the end of the string. -/
def validate_email (email : Str) : Bool :=
  let lp := email.takeWhile (fun c => c != '@')
  match email.dropWhile (fun c => c != '@') with
  | [] => false
  | _ :: dom =>
    !lp.isEmpty && lp.all localChar &&
    (List.range dom.length).any (fun i =>
      decide (1 ≤ i) && (dom.getD i ' ' == '.') && (dom.take i).all domainChar &&
      decide (i + 3 ≤ dom.length) && (dom.drop (i + 1)).all Char.isAlpha)

/-- `validate_password`: minimum length 8, nothing else. -/
def validate_password (password : Str) : Bool := decide (8 ≤ password.length)

/-- `validate_phone`: optional `+`, then at least 10 characters drawn from
digits, spaces, dashes and parentheses (regex `^\+?[\d\s\-\(\)]{10,}$`). -/
def phoneChar (c : Char) : Bool :=
  c.isDigit || c = ' ' || c = '\t' || c = '\n' || c = '\r' || c = '\x0b' || c = '\x0c'
    || c = '-' || c = '(' || c = ')'

def validate_phone (phone : Str) : Bool :=
  match phone with
  | '+' :: rest => decide (10 ≤ rest.length) && rest.all phoneChar
  | s => decide (10 ≤ s.length) && s.all phoneChar

def allowed_student_domains : List Str :=
  ["@students.kcau.ac.ke".data, "@student.kcau.ac.ke".data]

def allowed_lecturer_domains : List Str :=
  ["@kcau.ac.ke".data, "@staff.kcau.ac.ke".data, "@faculty.kcau.ac.ke".data]

/-- `validate_student_email`: email syntax, then case-insensitive suffix match
against the student domain list. -/
def validate_student_email (email : Str) : Bool × Str :=
  if !validate_email email then (false, "Invalid email format".data)
  else if allowed_student_domains.any (fun d => (lowerStr d).isSuffixOf (lowerStr email)) then
    (true, "Valid student email".data)
  else
    (false, "Email must be from an institutional domain (e.g., @students.kcau.ac.ke)".data)

/-- `validate_lecturer_email`: email syntax, then case-insensitive suffix match
against the lecturer domain list. -/
def validate_lecturer_email (email : Str) : Bool × Str :=
  if !validate_email email then (false, "Invalid email format".data)
  else if allowed_lecturer_domains.any (fun d => (lowerStr d).isSuffixOf (lowerStr email)) then
    (true, "Valid lecturer email".data)
  else
    (false, "Email must be from an institutional domain (e.g., @kcau.ac.ke)".data)

/-- `validate_institutional_email`: dispatch on the (lower-cased) role. -/
def validate_institutional_email (email : Str) (user_role : Str) : Bool × Str :=
  if lowerStr user_role = "student".data then validate_student_email email
  else if lowerStr user_role = "lecturer".data then validate_lecturer_email email
  else (false, "Invalid user role specified".data)

/-! ### models/user.py -/

structure User where
  id : Nat
  email : Str
  username : Str
  password_hash : Option Str := none
  first_name : Str := []
  last_name : Str := []
  profile_picture : Option Str := none
  phone_number : Option Str := none
  role : Str := "student".data
  is_active : Bool := true
  is_verified : Bool := false
  otp_code : Option Str := none
  otp_expires_at : Option Nat := none
  otp_attempts : Nat := 0
  google_id : Option Str := none
  last_login : Option Nat := none
  school_id : Option Nat := none
deriving DecidableEq

/-- Python truthiness of an optional string column (`None` and `""` are falsy). -/
def optStrFalsy : Option Str → Bool
  | none => true
  | some s => s.isEmpty

/-- werkzeug `generate_password_hash`, abstracted as the identity embedding. -/
def generate_password_hash (password : Str) : Str := password

/-- werkzeug `check_password_hash`: raises (`.error`) when the stored hash is
`None`, otherwise verifies by recomputation. -/
def check_password_hash : Option Str → Str → Except Unit Bool
  | none, _ => .error ()
  | some h, password => .ok (h = generate_password_hash password)

/-- `User.check_password`. -/
def User.check_password (u : User) (password : Str) : Except Unit Bool :=
  check_password_hash u.password_hash password

/-- `User.generate_otp`: 6-digit code from `randint 100000 999999`, expiry now
plus 10 minutes, attempt counter reset; returns the mutated user and the code. -/
def generate_otp (u : User) (seed now : Nat) : User × Str :=
  let code := natDigits (randint 100000 999999 seed)
  ({ u with otp_code := some code, otp_expires_at := some (now + 600), otp_attempts := 0 },
   code)

/-- `User.verify_otp`: returns the mutated user, the success flag and the
user-facing message. -/
def verify_otp (u : User) (provided : Str) (now : Nat) : User × Bool × Str :=
  if optStrFalsy u.otp_code || u.otp_expires_at.isNone then
    (u, false, "No OTP found. Please request a new one.".data)
  else if u.otp_expires_at.getD 0 < now then
    (u, false, "OTP has expired. Please request a new one.".data)
  else if 5 ≤ u.otp_attempts then
    (u, false, "Too many failed attempts. Please request a new OTP.".data)
  else if u.otp_code = some provided then
    ({ u with is_verified := true, otp_code := none, otp_expires_at := none,
              otp_attempts := 0 },
     true, "Email verified successfully!".data)
  else
    ({ u with otp_attempts := u.otp_attempts + 1 }, false,
     "Invalid OTP. ".data ++ natDigits (5 - (u.otp_attempts + 1))
       ++ " attempts remaining.".data)

/-- `User.clear_otp`. -/
def clear_otp (u : User) : User :=
  { u with otp_code := none, otp_expires_at := none, otp_attempts := 0 }

/-- `User.detect_role_from_email`: case-sensitive suffix dispatch. -/
def detect_role_from_email (email : Str) : Str :=
  if "@students.kcau.ac.ke".data.isSuffixOf email
      || "@student.kcau.ac.ke".data.isSuffixOf email then "student".data
  else if "@kcau.ac.ke".data.isSuffixOf email
      || "@staff.kcau.ac.ke".data.isSuffixOf email then "lecturer".data
  else "student".data

/-! ### views/auth.py — the orchestrator over a list-backed store -/

abbrev Store := List User

def find_by_email (store : Store) (email : Str) : Option User :=
  store.find? (fun u => decide (u.email = email))

def find_by_username (store : Store) (username : Str) : Option User :=
  store.find? (fun u => decide (u.username = username))

def find_by_google_id (store : Store) (gid : Str) : Option User :=
  store.find? (fun u => decide (u.google_id = some gid))

def find_by_id (store : Store) (uid : Nat) : Option User :=
  store.find? (fun u => decide (u.id = uid))

/-- Persisting a mutation of the single object returned by a lookup: replace
the first store entry satisfying `p`. -/
def replaceFirst (p : User → Bool) (f : User → User) : Store → Store
  | [] => []
  | u :: rest => if p u then f u :: rest else u :: replaceFirst p f rest

/-- Request body of POST /api/auth/register ([] models a missing/empty field). -/
structure RegisterData where
  email : Str := []
  username : Str := []
  password : Str := []
  first_name : Str := []
  last_name : Str := []
  phone_number : Str := []
deriving DecidableEq

inductive RegisterResult
  /-- 400, `{field} is required` -/
  | fieldMissing (field : Str)
  /-- 400, message from the institutional-email validator -/
  | validationError (msg : Str)
  /-- 400, password shorter than 8 -/
  | weakPassword
  /-- 409, `Email already registered` -/
  | emailTaken
  /-- 409, `Username already taken` -/
  | usernameTaken
  /-- 201 with `email_sent: false` -/
  | createdNoEmail (userId : Nat)
  /-- 201 -/
  | created (userId : Nat) (role : Str)
  /-- 500, `Registration failed` (generic exception handler) -/
  | serverError
deriving DecidableEq

/-- `register`: field presence, role detection, domain validation, password
strength, advisory duplicate checks, insert.  A uniqueness-constraint
violation at commit time is caught by the generic handler (500). -/
def register (store : Store) (d : RegisterData) (seed now newId : Nat)
    (emailSent : Bool) : RegisterResult × Store :=
  if d.email.isEmpty then (.fieldMissing "email".data, store)
  else if d.username.isEmpty then (.fieldMissing "username".data, store)
  else if d.password.isEmpty then (.fieldMissing "password".data, store)
  else if d.first_name.isEmpty then (.fieldMissing "first_name".data, store)
  else if d.last_name.isEmpty then (.fieldMissing "last_name".data, store)
  else
    let user_role := detect_role_from_email d.email
    let v := validate_institutional_email d.email user_role
    if !v.1 then (.validationError v.2, store)
    else if !validate_password d.password then (.weakPassword, store)
    else if (find_by_email store d.email).isSome then (.emailTaken, store)
    else if (find_by_username store d.username).isSome then (.usernameTaken, store)
    else
      let u0 : User :=
        { id := newId,
          email := strip (lowerStr d.email),
          username := strip d.username,
          first_name := strip d.first_name,
          last_name := strip d.last_name,
          phone_number := some (strip d.phone_number),
          role := user_role,
          is_verified := false,
          password_hash := some (generate_password_hash d.password) }
      let u := (generate_otp u0 seed now).1
      if store.any (fun w => decide (w.email = u.email) || decide (w.username = u.username)) then
        (.serverError, store)
      else if emailSent then (.created newId user_role, store ++ [u])
      else (.createdNoEmail newId, store ++ [u])

inductive VerifyResult
  | fieldMissing
  | userNotFound
  | alreadyVerified
  /-- 400 with the message from `User.verify_otp` -/
  | otpFailed (msg : Str)
  /-- 200 with tokens -/
  | verified (userId : Nat)
deriving DecidableEq

/-- POST /api/auth/verify-otp (`user_id` 0 models a falsy/absent id). -/
def verify_otp_endpoint (store : Store) (uid : Nat) (code : Str) (now : Nat) :
    VerifyResult × Store :=
  if uid = 0 || code.isEmpty then (.fieldMissing, store)
  else
    match find_by_id store uid with
    | none => (.userNotFound, store)
    | some u =>
      if u.is_verified then (.alreadyVerified, store)
      else
        let r := verify_otp u code now
        if !r.2.1 then
          (.otpFailed r.2.2, replaceFirst (fun w => decide (w.id = uid)) (fun _ => r.1) store)
        else
          (.verified u.id,
           replaceFirst (fun w => decide (w.id = uid))
             (fun _ => { r.1 with last_login := some now }) store)

inductive ResendResult
  | fieldMissing
  | userNotFound
  | alreadyVerified
  /-- 500, `Failed to send OTP email` (after the new code was committed) -/
  | emailFailed
  | sent
deriving DecidableEq

/-- POST /api/auth/resend-otp. -/
def resend_otp (store : Store) (uid seed now : Nat) (emailSent : Bool) :
    ResendResult × Store :=
  if uid = 0 then (.fieldMissing, store)
  else
    match find_by_id store uid with
    | none => (.userNotFound, store)
    | some u =>
      if u.is_verified then (.alreadyVerified, store)
      else
        let u1 := (generate_otp u seed now).1
        let store1 := replaceFirst (fun w => decide (w.id = uid)) (fun _ => u1) store
        if emailSent then (.sent, store1) else (.emailFailed, store1)

inductive LoginResult
  | fieldMissing
  /-- 400, `Invalid email format` -/
  | invalidFormat
  /-- 401, `Invalid email or password` -/
  | invalidCredentials
  /-- 401, `Account is deactivated` -/
  | deactivated
  /-- 401, unverified, carries the user id -/
  | verificationRequired (userId : Nat)
  /-- 200 -/
  | success (userId : Nat)
  /-- 500, `Login failed` (generic exception handler) -/
  | serverError
deriving DecidableEq

/-- POST /api/auth/login: the submitted email is lower-cased and stripped
before lookup; a raised exception (hash check on a `None` hash) lands in the
generic 500 handler. -/
def login (store : Store) (email password : Str) (now : Nat) : LoginResult × Store :=
  if email.isEmpty || password.isEmpty then (.fieldMissing, store)
  else
    let e := strip (lowerStr email)
    if !validate_email e then (.invalidFormat, store)
    else
      match find_by_email store e with
      | none => (.invalidCredentials, store)
      | some u =>
        match u.check_password password with
        | .error _ => (.serverError, store)
        | .ok ok =>
          if !ok then (.invalidCredentials, store)
          else if !u.is_active then (.deactivated, store)
          else if !u.is_verified then (.verificationRequired u.id, store)
          else
            (.success u.id,
             replaceFirst (fun w => decide (w.email = e))
               (fun w => { w with last_login := some now }) store)

/-- The verified Google identity tuple extracted from a valid token. -/
structure GoogleInfo where
  sub : Str
  email : Str
  given_name : Str := []
  family_name : Str := []
  picture : Str := []
deriving DecidableEq

inductive GoogleResult
  /-- 400/401, token missing or rejected by the verifier -/
  | invalidToken
  | success (userId : Nat)
deriving DecidableEq

/-- Candidate sequence of the username-collision loop: `base`, `base1`,
`base2`, ... -/
def usernameCandidate (base : Str) (k : Nat) : Str :=
  if k = 0 then base else base ++ natDigits k

/-- The `while User.find_by_username(username)` loop, with explicit fuel;
tries candidates from index `counter` upward and returns the first free one
(or the current candidate when the fuel runs out). -/
def resolveUsernameAux (store : Store) (base : Str) : Nat → Nat → Str
  | 0, counter => usernameCandidate base counter
  | fuel + 1, counter =>
    if (find_by_username store (usernameCandidate base counter)).isSome then
      resolveUsernameAux store base fuel (counter + 1)
    else usernameCandidate base counter

def resolveUsername (store : Store) (base : Str) : Str :=
  resolveUsernameAux store base (store.length + 1) 0

/-- POST /api/auth/google: `none` models a missing or invalid token.  Lookup
by google id, then by email (irreversible link), else auto-creation with
collision-resolved username and `is_verified := true`. -/
def google_auth (store : Store) (token : Option GoogleInfo) (now newId : Nat) :
    GoogleResult × Store :=
  match token with
  | none => (.invalidToken, store)
  | some info =>
    match find_by_google_id store info.sub with
    | some u =>
      (.success u.id,
       replaceFirst (fun w => decide (w.google_id = some info.sub))
         (fun w => { w with last_login := some now }) store)
    | none =>
      match find_by_email store info.email with
      | some u =>
        (.success u.id,
         replaceFirst (fun w => decide (w.email = info.email))
           (fun w =>
             { w with google_id := some info.sub,
                      profile_picture :=
                        if optStrFalsy w.profile_picture then some info.picture
                        else w.profile_picture,
                      last_login := some now }) store)
      | none =>
        let base := info.email.takeWhile (fun c => c != '@')
        let uname := resolveUsername store base
        let u : User :=
          { id := newId, email := info.email, username := uname,
            first_name := info.given_name, last_name := info.family_name,
            google_id := some info.sub, profile_picture := some info.picture,
            is_verified := true, password_hash := none, last_login := some now }
        (.success newId, store ++ [u])

/-- The operations of the auth core, for store-level invariant statements. -/
inductive AuthOp
  | regOp (d : RegisterData) (seed now newId : Nat) (emailSent : Bool)
  | verifyOp (uid : Nat) (code : Str) (now : Nat)
  | resendOp (uid seed now : Nat) (emailSent : Bool)
  | loginOp (email password : Str) (now : Nat)
  | googleOp (token : Option GoogleInfo) (now newId : Nat)
  | clearOp (uid : Nat)

def applyOp (store : Store) : AuthOp → Store
  | .regOp d seed now newId es => (register store d seed now newId es).2
  | .verifyOp uid code now => (verify_otp_endpoint store uid code now).2
  | .resendOp uid seed now es => (resend_otp store uid seed now es).2
  | .loginOp e p now => (login store e p now).2
  | .googleOp t now newId => (google_auth store t now newId).2
  | .clearOp uid => replaceFirst (fun w => decide (w.id = uid)) clear_otp store

/-- The OTP tri-state unit as the spec claims it: all absent, or all set with
the attempt counter strictly below 5. -/
def otpTriState (u : User) : Prop :=
  (u.otp_code = none ∧ u.otp_expires_at = none ∧ u.otp_attempts = 0) ∨
  (u.otp_code ≠ none ∧ u.otp_expires_at ≠ none ∧ u.otp_attempts < 5)

instance (u : User) : Decidable (otpTriState u) := by
  unfold otpTriState; infer_instance

/-- The OTP tri-state unit as the code maintains it: all absent, or all set
with the attempt counter at most 5. -/
def otpTriStateLe (u : User) : Prop :=
  (u.otp_code = none ∧ u.otp_expires_at = none ∧ u.otp_attempts = 0) ∨
  (u.otp_code ≠ none ∧ u.otp_expires_at ≠ none ∧ u.otp_attempts ≤ 5)

instance (u : User) : Decidable (otpTriStateLe u) := by
  unfold otpTriStateLe; infer_instance

/-! ### Decimal-rendering lemmas -/

theorem natDigitsAux_fuel : ∀ f1 f2 n, n < f1 → n < f2 →
    natDigitsAux f1 n = natDigitsAux f2 n := by
  intro f1
  induction f1 with
  | zero => omega
  | succ f1 ih =>
    intro f2 n h1 h2
    cases f2 with
    | zero => omega
    | succ f2 =>
      simp only [natDigitsAux]
      by_cases h : n < 10
      · simp [h]
      · have hd : n / 10 < n := Nat.div_lt_self (by omega) (by omega)
        simp only [if_neg h]
        rw [ih f2 (n / 10) (by omega) (by omega)]

theorem natDigits_lt (n : Nat) (h : n < 10) : natDigits n = [digitChar n] := by
  simp [natDigits, natDigitsAux, h]

theorem natDigits_ge (n : Nat) (h : ¬n < 10) :
    natDigits n = natDigits (n / 10) ++ [digitChar (n % 10)] := by
  have hd : n / 10 < n := Nat.div_lt_self (by omega) (by omega)
  have hstep : natDigitsAux (n + 1) n = natDigitsAux n (n / 10) ++ [digitChar (n % 10)] := by
    simp only [natDigitsAux, if_neg h]
  simp only [natDigits, hstep]
  rw [natDigitsAux_fuel n (n / 10 + 1) (n / 10) (by omega) (by omega)]

theorem natDigits_ne_nil (n : Nat) : natDigits n ≠ [] := by
  by_cases h : n < 10
  · simp [natDigits_lt n h]
  · simp [natDigits_ge n h]

/-- Value read back from a digit string. -/
def digitsVal (s : Str) : Nat := s.foldl (fun a c => 10 * a + charDigit c) 0

theorem charDigit_digitChar (d : Nat) (h : d < 10) : charDigit (digitChar d) = d := by
  interval_cases d <;> rfl

theorem digitsVal_append_singleton (s : Str) (c : Char) :
    digitsVal (s ++ [c]) = 10 * digitsVal s + charDigit c := by
  simp [digitsVal, List.foldl_append]

theorem digitsVal_natDigits (n : Nat) : digitsVal (natDigits n) = n := by
  induction n using Nat.strong_induction_on with
  | _ n ih =>
    by_cases h : n < 10
    · rw [natDigits_lt n h]
      simp [digitsVal, charDigit_digitChar n h]
    · rw [natDigits_ge n h, digitsVal_append_singleton,
        ih (n / 10) (Nat.div_lt_self (by omega) (by omega)),
        charDigit_digitChar (n % 10) (Nat.mod_lt n (by omega))]
      omega

theorem natDigits_inj : Function.Injective natDigits := by
  intro m n h
  rw [← digitsVal_natDigits m, ← digitsVal_natDigits n, h]

theorem natDigits_length_le (k : Nat) :
    ∀ n, n < 10 ^ (k + 1) → (natDigits n).length ≤ k + 1 := by
  induction k with
  | zero =>
    intro n hn
    rw [natDigits_lt n (by simpa using hn)]; simp
  | succ k ih =>
    intro n hn
    by_cases h : n < 10
    · rw [natDigits_lt n h]; simp
    · rw [natDigits_ge n h]
      have hdiv : n / 10 < 10 ^ (k + 1) := by
        rw [Nat.div_lt_iff_lt_mul (by omega : (0:Nat) < 10)]
        calc n < 10 ^ (k + 2) := hn
          _ = 10 ^ (k + 1) * 10 := by ring
      have := ih (n / 10) hdiv
      simp only [List.length_append, List.length_cons, List.length_nil]
      omega

theorem le_natDigits_length (k : Nat) :
    ∀ n, 10 ^ k ≤ n → k + 1 ≤ (natDigits n).length := by
  induction k with
  | zero =>
    intro n _
    have := List.length_pos.mpr (natDigits_ne_nil n)
    omega
  | succ k ih =>
    intro n hn
    have h10 : ¬n < 10 := by
      have h1 : (10:Nat) ^ 1 ≤ 10 ^ (k + 1) := Nat.pow_le_pow_right (by omega) (by omega)
      simp only [pow_one] at h1
      omega
    rw [natDigits_ge n h10]
    have hdiv : 10 ^ k ≤ n / 10 := by
      rw [Nat.le_div_iff_mul_le (by omega : (0:Nat) < 10)]
      calc 10 ^ k * 10 = 10 ^ (k + 1) := by ring
        _ ≤ n := hn
    have := ih (n / 10) hdiv
    simp only [List.length_append, List.length_cons, List.length_nil]
    omega

theorem natDigits_length_six (n : Nat) (h1 : 100000 ≤ n) (h2 : n ≤ 999999) :
    (natDigits n).length = 6 := by
  have hle := natDigits_length_le 5 n
    (by have : (10:Nat) ^ 6 = 1000000 := by norm_num
        omega)
  have hge := le_natDigits_length 5 n
    (by have : (10:Nat) ^ 5 = 100000 := by norm_num
        omega)
  omega

theorem randint_le (lo hi seed : Nat) (h : lo ≤ hi) :
    lo ≤ randint lo hi seed ∧ randint lo hi seed ≤ hi := by
  unfold randint
  have := Nat.mod_lt seed (by omega : 0 < hi + 1 - lo)
  omega

/-! ### Store-surgery lemmas -/

theorem mem_replaceFirst {p : User → Bool} {f : User → User} {l : Store} {v : User}
    (hv : v ∈ replaceFirst p f l) : v ∈ l ∨ ∃ w, w ∈ l ∧ v = f w := by
  induction l with
  | nil => simp [replaceFirst] at hv
  | cons a l ih =>
    by_cases h : p a
    · simp only [replaceFirst, if_pos h, List.mem_cons] at hv
      rcases hv with h1 | h1
      · exact Or.inr ⟨a, List.mem_cons_self a l, h1⟩
      · exact Or.inl (List.mem_cons_of_mem a h1)
    · simp only [replaceFirst, if_neg h, List.mem_cons] at hv
      rcases hv with h1 | h1
      · exact Or.inl (h1 ▸ List.mem_cons_self a l)
      · rcases ih h1 with h2 | ⟨w, hw, he⟩
        · exact Or.inl (List.mem_cons_of_mem a h2)
        · exact Or.inr ⟨w, List.mem_cons_of_mem a hw, he⟩

theorem replaceFirst_length (p : User → Bool) (f : User → User) (l : Store) :
    (replaceFirst p f l).length = l.length := by
  induction l with
  | nil => rfl
  | cons a l ih =>
    by_cases h : p a <;> simp [replaceFirst, h, ih]

theorem find?_replaceFirst (p : User → Bool) (f : User → User) (l : Store) (u : User)
    (hf : l.find? p = some u) (hp : p (f u) = true) :
    (replaceFirst p f l).find? p = some (f u) := by
  induction l with
  | nil => simp at hf
  | cons a l ih =>
    by_cases h : p a
    · rw [List.find?_cons_of_pos _ h] at hf
      cases hf
      simp [replaceFirst, if_pos h, List.find?_cons_of_pos _ hp]
    · rw [List.find?_cons_of_neg _ h] at hf
      simp [replaceFirst, if_neg h, List.find?_cons_of_neg _ h, ih hf]

theorem map_replaceFirst {α : Type} (g : User → α) (p : User → Bool) (f : User → User)
    (l : Store) (hg : ∀ w, g (f w) = g w) :
    (replaceFirst p f l).map g = l.map g := by
  induction l with
  | nil => rfl
  | cons a l ih =>
    by_cases h : p a <;> simp [replaceFirst, h, ih, hg]

theorem natDigits_isEmpty_false (n : Nat) : (natDigits n).isEmpty = false := by
  rcases h : natDigits n with _ | ⟨c, t⟩
  · exact absurd h (natDigits_ne_nil n)
  · rfl

/-- C1: for every user, `generate_otp` followed immediately by `verify_otp`
with the returned code succeeds exactly once: the code is the decimal
rendering of a number in [100000, 999999] (six digits); the first verify
returns success, sets `is_verified`, and clears `otp_code`, `otp_expires_at`
and `otp_attempts`; a second verify with the same code then fails with the
"no OTP found" message. -/
theorem otp_generate_verify_succeeds_once (u : User) (seed now : Nat) :
    (∃ n, 100000 ≤ n ∧ n ≤ 999999 ∧ (generate_otp u seed now).2 = natDigits n ∧
      ((generate_otp u seed now).2).length = 6) ∧
    (verify_otp (generate_otp u seed now).1 (generate_otp u seed now).2 now).2.1 = true ∧
    (verify_otp (generate_otp u seed now).1 (generate_otp u seed now).2 now).2.2 =
      "Email verified successfully!".data ∧
    (verify_otp (generate_otp u seed now).1 (generate_otp u seed now).2 now).1.is_verified = true ∧
    (verify_otp (generate_otp u seed now).1 (generate_otp u seed now).2 now).1.otp_code = none ∧
    (verify_otp (generate_otp u seed now).1 (generate_otp u seed now).2 now).1.otp_expires_at
      = none ∧
    (verify_otp (generate_otp u seed now).1 (generate_otp u seed now).2 now).1.otp_attempts = 0 ∧
    verify_otp (verify_otp (generate_otp u seed now).1 (generate_otp u seed now).2 now).1
        (generate_otp u seed now).2 now =
      ((verify_otp (generate_otp u seed now).1 (generate_otp u seed now).2 now).1, false,
       "No OTP found. Please request a new one.".data) := by
  obtain ⟨hlo, hhi⟩ := randint_le 100000 999999 seed (by omega)
  refine ⟨⟨randint 100000 999999 seed, hlo, hhi, rfl, ?_⟩, ?_⟩
  · simpa [generate_otp] using natDigits_length_six _ hlo hhi
  · simp [generate_otp, verify_otp, optStrFalsy, natDigits_isEmpty_false]

/-- A single failed attempt: with a live, unexpired code, a non-locked counter
and a wrong submission, `verify_otp` increments the counter and reports the
remaining attempts. -/
theorem verify_otp_wrong_step (u : User) (c w : Str) (t now : Nat)
    (hc : u.otp_code = some c) (hcne : c ≠ []) (ht : u.otp_expires_at = some t)
    (hnow : ¬t < now) (hlt : u.otp_attempts < 5) (hw : w ≠ c) :
    verify_otp u w now =
      ({ u with otp_attempts := u.otp_attempts + 1 }, false,
       "Invalid OTP. ".data ++ natDigits (5 - (u.otp_attempts + 1))
         ++ " attempts remaining.".data) := by
  have hce : c.isEmpty = false := by
    cases c with
    | nil => exact absurd rfl hcne
    | cons a l => rfl
  have hwc : ¬c = w := fun h => hw h.symm
  simp [verify_otp, hc, ht, optStrFalsy, hce, hnow, Nat.not_le.mpr hlt, hwc]

/-- C2: with a fresh unexpired OTP, five wrong submissions increment the
counter through 1..5 and report remaining attempts 4, 3, 2, 1, 0; a sixth
call fails with the lock message for every submission, including the stored
code itself, and leaves the user unchanged. -/
theorem otp_attempt_lock (u : User) (c : Str) (t now : Nat) (w1 w2 w3 w4 w5 z : Str)
    (hc : u.otp_code = some c) (hcne : c ≠ [])
    (ht : u.otp_expires_at = some t) (hnow : ¬t < now)
    (ha : u.otp_attempts = 0)
    (h1 : w1 ≠ c) (h2 : w2 ≠ c) (h3 : w3 ≠ c) (h4 : w4 ≠ c) (h5 : w5 ≠ c) :
    verify_otp u w1 now =
      ({ u with otp_attempts := 1 }, false, "Invalid OTP. 4 attempts remaining.".data) ∧
    verify_otp { u with otp_attempts := 1 } w2 now =
      ({ u with otp_attempts := 2 }, false, "Invalid OTP. 3 attempts remaining.".data) ∧
    verify_otp { u with otp_attempts := 2 } w3 now =
      ({ u with otp_attempts := 3 }, false, "Invalid OTP. 2 attempts remaining.".data) ∧
    verify_otp { u with otp_attempts := 3 } w4 now =
      ({ u with otp_attempts := 4 }, false, "Invalid OTP. 1 attempts remaining.".data) ∧
    verify_otp { u with otp_attempts := 4 } w5 now =
      ({ u with otp_attempts := 5 }, false, "Invalid OTP. 0 attempts remaining.".data) ∧
    verify_otp { u with otp_attempts := 5 } z now =
      ({ u with otp_attempts := 5 }, false,
       "Too many failed attempts. Please request a new OTP.".data) := by
  have hce : c.isEmpty = false := by
    cases c with
    | nil => exact absurd rfl hcne
    | cons a l => rfl
  have m4 : "Invalid OTP. ".data ++ natDigits 4 ++ " attempts remaining.".data =
      "Invalid OTP. 4 attempts remaining.".data := by decide
  have m3 : "Invalid OTP. ".data ++ natDigits 3 ++ " attempts remaining.".data =
      "Invalid OTP. 3 attempts remaining.".data := by decide
  have m2 : "Invalid OTP. ".data ++ natDigits 2 ++ " attempts remaining.".data =
      "Invalid OTP. 2 attempts remaining.".data := by decide
  have m1 : "Invalid OTP. ".data ++ natDigits 1 ++ " attempts remaining.".data =
      "Invalid OTP. 1 attempts remaining.".data := by decide
  have m0 : "Invalid OTP. ".data ++ natDigits 0 ++ " attempts remaining.".data =
      "Invalid OTP. 0 attempts remaining.".data := by decide
  refine ⟨?_, ?_, ?_, ?_, ?_, ?_⟩
  · have := verify_otp_wrong_step u c w1 t now hc hcne ht hnow (by omega) h1
    rw [ha] at this
    simpa [m4] using this
  · have := verify_otp_wrong_step { u with otp_attempts := 1 } c w2 t now
      (by simpa using hc) hcne (by simpa using ht) hnow (by simp) h2
    simpa [m3] using this
  · have := verify_otp_wrong_step { u with otp_attempts := 2 } c w3 t now
      (by simpa using hc) hcne (by simpa using ht) hnow (by simp) h3
    simpa [m2] using this
  · have := verify_otp_wrong_step { u with otp_attempts := 3 } c w4 t now
      (by simpa using hc) hcne (by simpa using ht) hnow (by simp) h4
    simpa [m1] using this
  · have := verify_otp_wrong_step { u with otp_attempts := 4 } c w5 t now
      (by simpa using hc) hcne (by simpa using ht) hnow (by simp) h5
    simpa [m0] using this
  · simp [verify_otp, hc, ht, optStrFalsy, hce, hnow]

/-- C2 witness. -/
theorem otp_attempt_lock_witness :
    verify_otp
        { id := 1, email := "a@students.kcau.ac.ke".data, username := "alice".data,
          otp_code := some "111111".data, otp_expires_at := some 1000,
          otp_attempts := 0 : User }
        "222222".data 500 =
      ({ id := 1, email := "a@students.kcau.ac.ke".data, username := "alice".data,
         otp_code := some "111111".data, otp_expires_at := some 1000,
         otp_attempts := 1 : User }, false,
       "Invalid OTP. 4 attempts remaining.".data) :=
  (otp_attempt_lock
    { id := 1, email := "a@students.kcau.ac.ke".data, username := "alice".data,
      otp_code := some "111111".data, otp_expires_at := some 1000, otp_attempts := 0 }
    "111111".data 1000 500 "222222".data "222222".data "222222".data "222222".data
    "222222".data "111111".data rfl (by decide) rfl (by decide) rfl
    (by decide) (by decide) (by decide) (by decide) (by decide)).1

/-! ### C3 — role detection vs. domain validation -/

theorem lower_suffix_transfer {d e : Str} (h : d.isSuffixOf e = true) :
    (lowerStr d).isSuffixOf (lowerStr e) = true := by
  simp only [List.isSuffixOf_iff_suffix] at h ⊢
  exact List.IsSuffix.map Char.toLower h

/-- C3 counterexample: `a@faculty.kcau.ac.ke` is a syntactically valid email
whose domain is in the lecturer allow-list of the validator, yet
`detect_role_from_email` classifies it as student, and validation under the
detected role rejects it. -/
theorem role_detection_lecturer_counterexample :
    validate_email "a@faculty.kcau.ac.ke".data = true ∧
    (validate_institutional_email "a@faculty.kcau.ac.ke".data "lecturer".data).1 = true ∧
    detect_role_from_email "a@faculty.kcau.ac.ke".data ≠ "lecturer".data ∧
    detect_role_from_email "a@faculty.kcau.ac.ke".data = "student".data ∧
    (validate_institutional_email "a@faculty.kcau.ac.ke".data
      (detect_role_from_email "a@faculty.kcau.ac.ke".data)).1 = false := by decide

/-- C3 (amended): role detection and validation agree for student-domain
emails (case-insensitively) and for emails ending case-sensitively in one of
the two lecturer domains the detector knows (`@kcau.ac.ke`,
`@staff.kcau.ac.ke`); an email matching no allow-listed domain is detected as
student and rejected by the student validation. -/
theorem role_detection_validation_agree :
    (∀ e : Str, validate_email e = true →
        allowed_student_domains.any (fun d => (lowerStr d).isSuffixOf (lowerStr e)) = true →
        detect_role_from_email e = "student".data ∧
        (validate_institutional_email e (detect_role_from_email e)).1 = true) ∧
    (∀ e : Str, validate_email e = true →
        ("@kcau.ac.ke".data.isSuffixOf e || "@staff.kcau.ac.ke".data.isSuffixOf e) = true →
        detect_role_from_email e = "lecturer".data ∧
        (validate_institutional_email e (detect_role_from_email e)).1 = true) ∧
    (∀ e : Str,
        (∀ d ∈ allowed_student_domains ++ allowed_lecturer_domains,
          (lowerStr d).isSuffixOf (lowerStr e) = false) →
        detect_role_from_email e = "student".data ∧
        (validate_institutional_email e (detect_role_from_email e)).1 = false) := by
  have l1 : lowerStr "@students.kcau.ac.ke".data = "@students.kcau.ac.ke".data := by decide
  have l2 : lowerStr "@student.kcau.ac.ke".data = "@student.kcau.ac.ke".data := by decide
  have l3 : lowerStr "@kcau.ac.ke".data = "@kcau.ac.ke".data := by decide
  have l4 : lowerStr "@staff.kcau.ac.ke".data = "@staff.kcau.ac.ke".data := by decide
  refine ⟨?_, ?_, ?_⟩
  · intro e hv hs
    have hs2 : ((lowerStr "@students.kcau.ac.ke".data).isSuffixOf (lowerStr e) = true) ∨
        ((lowerStr "@student.kcau.ac.ke".data).isSuffixOf (lowerStr e) = true) := by
      simpa [allowed_student_domains] using hs
    have hdet : detect_role_from_email e = "student".data := by
      unfold detect_role_from_email
      by_cases hst : ("@students.kcau.ac.ke".data.isSuffixOf e
          || "@student.kcau.ac.ke".data.isSuffixOf e) = true
      · simp [hst]
      · have hlec : ¬("@kcau.ac.ke".data.isSuffixOf e
            || "@staff.kcau.ac.ke".data.isSuffixOf e) = true := by
          intro hl
          rw [Bool.or_eq_true] at hl
          have hl2 : ("@kcau.ac.ke".data <:+ lowerStr e) ∨
              ("@staff.kcau.ac.ke".data <:+ lowerStr e) := by
            rcases hl with hl | hl
            · exact Or.inl (by
                have := lower_suffix_transfer hl
                rw [l3] at this
                simpa [List.isSuffixOf_iff_suffix] using this)
            · exact Or.inr (by
                have := lower_suffix_transfer hl
                rw [l4] at this
                simpa [List.isSuffixOf_iff_suffix] using this)
          have hs3 : ("@students.kcau.ac.ke".data <:+ lowerStr e) ∨
              ("@student.kcau.ac.ke".data <:+ lowerStr e) := by
            rw [l1] at hs2; rw [l2] at hs2
            simpa [List.isSuffixOf_iff_suffix] using hs2
          rcases hs3 with h | h <;> rcases hl2 with h2 | h2 <;>
            exact absurd (List.suffix_or_suffix_of_suffix h h2) (by decide)
        simp [hst, hlec]
    refine ⟨hdet, ?_⟩
    rw [hdet]
    have hrole : lowerStr "student".data = "student".data := by decide
    simp only [validate_institutional_email, hrole, if_pos rfl]
    simp [validate_student_email, hv, hs]
  · intro e hv hl
    have hnst : ¬("@students.kcau.ac.ke".data.isSuffixOf e
        || "@student.kcau.ac.ke".data.isSuffixOf e) = true := by
      intro hst
      rw [Bool.or_eq_true] at hst hl
      simp only [List.isSuffixOf_iff_suffix] at hst hl
      rcases hst with h | h <;> rcases hl with h2 | h2 <;>
        exact absurd (List.suffix_or_suffix_of_suffix h h2) (by decide)
    have hdet : detect_role_from_email e = "lecturer".data := by
      simp [detect_role_from_email, hnst, hl]
    refine ⟨hdet, ?_⟩
    rw [hdet]
    have hr1 : ¬lowerStr "lecturer".data = "student".data := by decide
    have hr2 : lowerStr "lecturer".data = "lecturer".data := by decide
    simp only [validate_institutional_email, hr1, if_neg, hr2, if_pos, if_false]
    have hany : allowed_lecturer_domains.any
        (fun d => (lowerStr d).isSuffixOf (lowerStr e)) = true := by
      rw [Bool.or_eq_true] at hl
      rcases hl with h | h
      · exact List.any_eq_true.mpr
          ⟨"@kcau.ac.ke".data, by decide, lower_suffix_transfer h⟩
      · exact List.any_eq_true.mpr
          ⟨"@staff.kcau.ac.ke".data, by decide, lower_suffix_transfer h⟩
    simp [validate_lecturer_email, hv, hany]
  · intro e hn
    have hnst : ¬("@students.kcau.ac.ke".data.isSuffixOf e
        || "@student.kcau.ac.ke".data.isSuffixOf e) = true := by
      intro hst
      rw [Bool.or_eq_true] at hst
      rcases hst with h | h
      · have := lower_suffix_transfer h
        rw [hn "@students.kcau.ac.ke".data (by decide)] at this
        exact Bool.noConfusion this
      · have := lower_suffix_transfer h
        rw [hn "@student.kcau.ac.ke".data (by decide)] at this
        exact Bool.noConfusion this
    have hnlec : ¬("@kcau.ac.ke".data.isSuffixOf e
        || "@staff.kcau.ac.ke".data.isSuffixOf e) = true := by
      intro hlc
      rw [Bool.or_eq_true] at hlc
      rcases hlc with h | h
      · have := lower_suffix_transfer h
        rw [hn "@kcau.ac.ke".data (by decide)] at this
        exact Bool.noConfusion this
      · have := lower_suffix_transfer h
        rw [hn "@staff.kcau.ac.ke".data (by decide)] at this
        exact Bool.noConfusion this
    have hdet : detect_role_from_email e = "student".data := by
      simp [detect_role_from_email, hnst, hnlec]
    refine ⟨hdet, ?_⟩
    rw [hdet]
    have hrole : lowerStr "student".data = "student".data := by decide
    simp only [validate_institutional_email, hrole, if_pos rfl]
    by_cases hv : validate_email e = true
    · have hany : allowed_student_domains.any
          (fun d => (lowerStr d).isSuffixOf (lowerStr e)) = false := by
        rw [List.any_eq_false]
        intro d hd
        have hd2 : d = "@students.kcau.ac.ke".data ∨ d = "@student.kcau.ac.ke".data := by
          simpa [allowed_student_domains] using hd
        rcases hd2 with rfl | rfl
        · simp [hn "@students.kcau.ac.ke".data (by decide)]
        · simp [hn "@student.kcau.ac.ke".data (by decide)]
      simp [validate_student_email, hv, hany]
    · simp [validate_student_email, hv]

/-- C3 witness: the three clauses of the amended agreement theorem at
concrete emails of each kind. -/
theorem role_detection_validation_agree_witness :
    (detect_role_from_email "jane@students.kcau.ac.ke".data = "student".data ∧
      (validate_institutional_email "jane@students.kcau.ac.ke".data
        (detect_role_from_email "jane@students.kcau.ac.ke".data)).1 = true) ∧
    (detect_role_from_email "prof@staff.kcau.ac.ke".data = "lecturer".data ∧
      (validate_institutional_email "prof@staff.kcau.ac.ke".data
        (detect_role_from_email "prof@staff.kcau.ac.ke".data)).1 = true) ∧
    (detect_role_from_email "joe@gmail.com".data = "student".data ∧
      (validate_institutional_email "joe@gmail.com".data
        (detect_role_from_email "joe@gmail.com".data)).1 = false) :=
  ⟨role_detection_validation_agree.1 "jane@students.kcau.ac.ke".data
      (by decide) (by decide),
   role_detection_validation_agree.2.1 "prof@staff.kcau.ac.ke".data
      (by decide) (by decide),
   role_detection_validation_agree.2.2 "joe@gmail.com".data (by decide)⟩

/-! ### C4 — duplicate handling at registration -/

def c4data1 : RegisterData :=
  { email := "A@students.kcau.ac.ke".data, username := "alice".data,
    password := "password123".data, first_name := "A".data, last_name := "B".data }

def c4data2 : RegisterData :=
  { email := "A@students.kcau.ac.ke".data, username := "bob".data,
    password := "password123".data, first_name := "C".data, last_name := "D".data }

/-- C4 counterexample: registering the very same email twice (here with an
upper-case letter, so the advisory raw-email lookup misses the stored
lower-cased copy) drives the second call into the uniqueness-constraint
violation at insert time, which surfaces as the generic 500 `serverError`,
not as `emailTaken`/`usernameTaken`. -/
theorem register_duplicate_email_counterexample :
    (register [] c4data1 0 0 1 true).1 = RegisterResult.created 1 "student".data ∧
    (register (register [] c4data1 0 0 1 true).2 c4data2 0 0 2 true).1 =
      RegisterResult.serverError ∧
    RegisterResult.serverError ≠ RegisterResult.emailTaken ∧
    RegisterResult.serverError ≠ RegisterResult.usernameTaken := by decide

/-- C4 (amended): the advisory pre-checks yield `emailTaken` for a stored
user with exactly the submitted email and `usernameTaken` for exactly the
submitted username; a duplicate that only the storage-level uniqueness
constraint catches at insert time (e.g. the same email in different case)
surfaces as the generic 500 `serverError`, never as
`emailTaken`/`usernameTaken`.  The store is unchanged in all three cases. -/
theorem register_duplicate_handling (store : Store) (d : RegisterData)
    (seed now newId : Nat) (es : Bool)
    (h1 : d.email.isEmpty = false) (h2 : d.username.isEmpty = false)
    (h3 : d.password.isEmpty = false) (h4 : d.first_name.isEmpty = false)
    (h5 : d.last_name.isEmpty = false)
    (hv : (validate_institutional_email d.email (detect_role_from_email d.email)).1 = true)
    (hp : validate_password d.password = true) :
    ((find_by_email store d.email).isSome = true →
      register store d seed now newId es = (.emailTaken, store)) ∧
    ((find_by_email store d.email).isSome = false →
      (find_by_username store d.username).isSome = true →
      register store d seed now newId es = (.usernameTaken, store)) ∧
    ((find_by_email store d.email).isSome = false →
      (find_by_username store d.username).isSome = false →
      store.any (fun w => decide (w.email = strip (lowerStr d.email))
        || decide (w.username = strip d.username)) = true →
      register store d seed now newId es = (.serverError, store)) := by
  refine ⟨?_, ?_, ?_⟩
  · intro he
    simp [register, h1, h2, h3, h4, h5, hv, hp, he]
  · intro he hu
    simp [register, h1, h2, h3, h4, h5, hv, hp, he, hu]
  · intro he hu hc
    simp [register, h1, h2, h3, h4, h5, hv, hp, he, hu, generate_otp, hc]

def c4user : User :=
  { id := 1, email := "a@students.kcau.ac.ke".data, username := "alice".data,
    password_hash := some "password123".data }

def c4dataDup : RegisterData :=
  { email := "a@students.kcau.ac.ke".data, username := "bob".data,
    password := "password123".data, first_name := "C".data, last_name := "D".data }

/-- C4 witness: a second registration with the exact stored email yields
`emailTaken` and leaves the store unchanged. -/
theorem register_duplicate_handling_witness :
    register [c4user] c4dataDup 0 0 2 true = (.emailTaken, [c4user]) :=
  (register_duplicate_handling [c4user] c4dataDup 0 0 2 true (by decide) (by decide)
    (by decide) (by decide) (by decide) (by decide) (by decide)).1 (by decide)

/-! ### C5/C9 machinery — how each operation reshapes the store -/

theorem replaceFirst_of_find_none (p : User → Bool) (f : User → User) (l : Store)
    (hf : l.find? p = none) : replaceFirst p f l = l := by
  induction l with
  | nil => rfl
  | cons a l ih =>
    by_cases h : p a
    · rw [List.find?_cons_of_pos _ h] at hf
      exact absurd hf (by simp)
    · rw [List.find?_cons_of_neg _ h] at hf
      simp [replaceFirst, h, ih hf]

theorem mem_replaceFirst_find {p : User → Bool} {f : User → User} {l : Store} {u v : User}
    (hf : l.find? p = some u) (hv : v ∈ replaceFirst p f l) : v ∈ l ∨ v = f u := by
  induction l with
  | nil => simp at hf
  | cons a l ih =>
    by_cases h : p a
    · rw [List.find?_cons_of_pos _ h] at hf
      injection hf with hau
      subst hau
      simp only [replaceFirst, if_pos h, List.mem_cons] at hv
      rcases hv with h1 | h1
      · exact Or.inr h1
      · exact Or.inl (List.mem_cons_of_mem _ h1)
    · rw [List.find?_cons_of_neg _ h] at hf
      simp only [replaceFirst, if_neg h, List.mem_cons] at hv
      rcases hv with h1 | h1
      · exact Or.inl (h1 ▸ List.mem_cons_self a l)
      · rcases ih hf h1 with h2 | h2
        · exact Or.inl (List.mem_cons_of_mem _ h2)
        · exact Or.inr h2

theorem verify_otp_fst_id (u : User) (w : Str) (now : Nat) :
    ((verify_otp u w now).1).id = u.id := by
  unfold verify_otp
  split_ifs <;> rfl

theorem otpTriStateLe_generate (u : User) (seed now : Nat) :
    otpTriStateLe (generate_otp u seed now).1 := by
  right
  refine ⟨?_, ?_, ?_⟩ <;> simp [generate_otp]

theorem otpTriStateLe_clear (u : User) : otpTriStateLe (clear_otp u) := by
  left
  refine ⟨?_, ?_, ?_⟩ <;> simp [clear_otp]

theorem otpTriStateLe_last_login (u : User) (now : Nat) (h : otpTriStateLe u) :
    otpTriStateLe { u with last_login := some now } := by
  simpa [otpTriStateLe] using h

theorem otpTriStateLe_verify (u : User) (w : Str) (now : Nat) (h : otpTriStateLe u) :
    otpTriStateLe (verify_otp u w now).1 := by
  unfold verify_otp
  split_ifs with h1 h2 h3 h4
  · exact h
  · exact h
  · exact h
  · left; refine ⟨rfl, rfl, rfl⟩
  · right
    rw [Bool.or_eq_true, not_or] at h1
    obtain ⟨hcode, hexp⟩ := h1
    refine ⟨fun hc => hcode ?_, fun hc => hexp ?_, ?_⟩
    · have hc2 : u.otp_code = none := hc
      simp [optStrFalsy, hc2]
    · have hc2 : u.otp_expires_at = none := hc
      simp [hc2]
    · show u.otp_attempts + 1 ≤ 5
      omega

set_option maxHeartbeats 1000000 in
/-- The store component of `register`: unchanged, or the freshly OTP-seeded
new user appended. -/
theorem register_snd (store : Store) (d : RegisterData) (seed now newId : Nat)
    (es : Bool) :
    (register store d seed now newId es).2 = store ∨
    (register store d seed now newId es).2 =
      store ++ [(generate_otp
        { id := newId, email := strip (lowerStr d.email), username := strip d.username,
          first_name := strip d.first_name, last_name := strip d.last_name,
          phone_number := some (strip d.phone_number),
          role := detect_role_from_email d.email, is_verified := false,
          password_hash := some (generate_password_hash d.password) } seed now).1] := by
  suffices h : ∀ pr : RegisterResult × Store, register store d seed now newId es = pr →
      pr.2 = store ∨
      pr.2 = store ++ [(generate_otp
        { id := newId, email := strip (lowerStr d.email), username := strip d.username,
          first_name := strip d.first_name, last_name := strip d.last_name,
          phone_number := some (strip d.phone_number),
          role := detect_role_from_email d.email, is_verified := false,
          password_hash := some (generate_password_hash d.password) } seed now).1] by
    exact h _ rfl
  intro pr hpr
  subst hpr
  cases h1 : d.email.isEmpty
  case true => exact Or.inl (by simp [register, h1])
  cases h2 : d.username.isEmpty
  case true => exact Or.inl (by simp [register, h1, h2])
  cases h3 : d.password.isEmpty
  case true => exact Or.inl (by simp [register, h1, h2, h3])
  cases h4 : d.first_name.isEmpty
  case true => exact Or.inl (by simp [register, h1, h2, h3, h4])
  cases h5 : d.last_name.isEmpty
  case true => exact Or.inl (by simp [register, h1, h2, h3, h4, h5])
  cases h6 : (validate_institutional_email d.email (detect_role_from_email d.email)).1
  case false => exact Or.inl (by simp [register, h1, h2, h3, h4, h5, h6])
  cases h7 : validate_password d.password
  case false => exact Or.inl (by simp [register, h1, h2, h3, h4, h5, h6, h7])
  cases h8 : (find_by_email store d.email).isSome
  case true => exact Or.inl (by simp [register, h1, h2, h3, h4, h5, h6, h7, h8])
  cases h9 : (find_by_username store d.username).isSome
  case true => exact Or.inl (by simp [register, h1, h2, h3, h4, h5, h6, h7, h8, h9])
  cases h10 : store.any (fun w => decide (w.email = strip (lowerStr d.email))
      || decide (w.username = strip d.username))
  case true =>
    exact Or.inl (by simp [register, generate_otp, h1, h2, h3, h4, h5, h6, h7, h8, h9, h10])
  cases h11 : es
  case false =>
    exact Or.inr (by
      simp [register, generate_otp, h1, h2, h3, h4, h5, h6, h7, h8, h9, h10])
  case true =>
    exact Or.inr (by
      simp [register, generate_otp, h1, h2, h3, h4, h5, h6, h7, h8, h9, h10])

set_option maxHeartbeats 1000000 in
/-- Case analysis of one request on the store: it is unchanged, or one user
found by a lookup is replaced by a mutation of fixed shape, or one fresh user
is appended. -/
theorem applyOp_shape (store : Store) (op : AuthOp) :
    applyOp store op = store ∨
    (∃ p f u, store.find? p = some u ∧ applyOp store op = replaceFirst p f store ∧
      (∀ w, p w = true → (f w).id = w.id) ∧
      (u.is_verified = true → (f u).is_verified = true) ∧
      (otpTriStateLe u → otpTriStateLe (f u))) ∨
    (∃ u, applyOp store op = store ++ [u] ∧ otpTriStateLe u ∧
      (u.is_verified = true ∨ ∃ d seed now es, op = AuthOp.regOp d seed now u.id es)) := by
  cases op with
  | regOp d seed now newId es =>
    rcases register_snd store d seed now newId es with hr | hr
    · exact Or.inl hr
    · exact Or.inr (Or.inr ⟨_, hr, otpTriStateLe_generate _ seed now,
        Or.inr ⟨d, seed, now, es, rfl⟩⟩)
  | verifyOp uid code now =>
    simp only [applyOp, verify_otp_endpoint]
    split
    · exact Or.inl rfl
    split
    next hf => exact Or.inl rfl
    next u hf =>
      have hfind : store.find? (fun w => decide (w.id = uid)) = some u := hf
      have hp2 := List.find?_some hfind
      have hpu : u.id = uid := of_decide_eq_true hp2
      split
      next hverif => exact Or.inl rfl
      next hverif =>
        split
        · refine Or.inr (Or.inl ⟨_, _, u, hfind, rfl, ?_, ?_, ?_⟩)
          · intro w hw
            have hw2 : w.id = uid := of_decide_eq_true hw
            show ((verify_otp u code now).1).id = w.id
            rw [verify_otp_fst_id, hpu, hw2]
          · intro hvv; exact absurd hvv hverif
          · intro hle; exact otpTriStateLe_verify u code now hle
        · refine Or.inr (Or.inl ⟨_, _, u, hfind, rfl, ?_, ?_, ?_⟩)
          · intro w hw
            have hw2 : w.id = uid := of_decide_eq_true hw
            show ((verify_otp u code now).1).id = w.id
            rw [verify_otp_fst_id, hpu, hw2]
          · intro hvv; exact absurd hvv hverif
          · intro hle
            exact otpTriStateLe_last_login _ now (otpTriStateLe_verify u code now hle)
  | resendOp uid seed now es =>
    simp only [applyOp, resend_otp]
    split
    · exact Or.inl rfl
    split
    next hf => exact Or.inl rfl
    next u hf =>
      have hfind : store.find? (fun w => decide (w.id = uid)) = some u := hf
      have hp2 := List.find?_some hfind
      have hpu : u.id = uid := of_decide_eq_true hp2
      split
      next hverif => exact Or.inl rfl
      next hverif =>
        split
        · refine Or.inr (Or.inl ⟨_, _, u, hfind, rfl, ?_, ?_, ?_⟩)
          · intro w hw
            have hw2 : w.id = uid := of_decide_eq_true hw
            show ((generate_otp u seed now).1).id = w.id
            show u.id = w.id
            rw [hpu, hw2]
          · intro hvv
            show ((generate_otp u seed now).1).is_verified = true
            exact hvv
          · intro _; exact otpTriStateLe_generate u seed now
        · refine Or.inr (Or.inl ⟨_, _, u, hfind, rfl, ?_, ?_, ?_⟩)
          · intro w hw
            have hw2 : w.id = uid := of_decide_eq_true hw
            show ((generate_otp u seed now).1).id = w.id
            show u.id = w.id
            rw [hpu, hw2]
          · intro hvv
            show ((generate_otp u seed now).1).is_verified = true
            exact hvv
          · intro _; exact otpTriStateLe_generate u seed now
  | loginOp email password now =>
    simp only [applyOp, login]
    split
    · exact Or.inl rfl
    split
    · exact Or.inl rfl
    split
    next he => exact Or.inl rfl
    next u he =>
      have hfind : store.find? (fun w => decide (w.email = strip (lowerStr email)))
          = some u := he
      split
      next err hcp => exact Or.inl rfl
      next ok hcp =>
        split
        · exact Or.inl rfl
        split
        · exact Or.inl rfl
        split
        · exact Or.inl rfl
        · refine Or.inr (Or.inl ⟨_, _, u, hfind, rfl, ?_, ?_, ?_⟩)
          · intro w _; rfl
          · intro hvv; exact hvv
          · intro hle; exact otpTriStateLe_last_login u now hle
  | googleOp token now newId =>
    simp only [applyOp, google_auth]
    split
    next => exact Or.inl rfl
    next info =>
      split
      next u hg =>
        have hfind : store.find? (fun w => decide (w.google_id = some info.sub))
            = some u := hg
        refine Or.inr (Or.inl ⟨_, _, u, hfind, rfl, ?_, ?_, ?_⟩)
        · intro w _; rfl
        · intro hvv; exact hvv
        · intro hle; exact otpTriStateLe_last_login u now hle
      next hg =>
        split
        next u he =>
          have hfind : store.find? (fun w => decide (w.email = info.email)) = some u := he
          refine Or.inr (Or.inl ⟨_, _, u, hfind, rfl, ?_, ?_, ?_⟩)
          · intro w _; rfl
          · intro hvv; exact hvv
          · intro hle
            rcases hle with ⟨h1, h2, h3⟩ | ⟨h1, h2, h3⟩
            · exact Or.inl ⟨h1, h2, h3⟩
            · exact Or.inr ⟨h1, h2, h3⟩
        next he =>
          exact Or.inr (Or.inr ⟨_, rfl, Or.inl ⟨rfl, rfl, rfl⟩, Or.inl rfl⟩)
  | clearOp uid =>
    rcases hf : store.find? (fun w => decide (w.id = uid)) with _ | u
    · exact Or.inl (replaceFirst_of_find_none _ _ _ hf)
    · refine Or.inr (Or.inl ⟨_, _, u, hf, rfl, ?_, ?_, ?_⟩)
      · intro w _; rfl
      · intro hvv; exact hvv
      · intro _; exact otpTriStateLe_clear u

/-! ### C5 — the OTP tri-state invariant -/

def c5user : User :=
  { id := 1, email := "a@students.kcau.ac.ke".data, username := "alice".data,
    otp_code := some "111111".data, otp_expires_at := some 1000, otp_attempts := 4 }

/-- C5 counterexample: a store satisfying the claimed invariant (all OTP
fields set, attempts in [0,5)) on which one more wrong verification leaves
the fields set with attempts = 5, violating `attempts < 5`. -/
theorem otp_tristate_strict_violated :
    (∀ v ∈ [c5user], otpTriState v) ∧
    ¬(∀ v ∈ applyOp [c5user] (AuthOp.verifyOp 1 "222222".data 500), otpTriState v) := by
  decide

/-- C5 (amended): every operation of the core preserves the tri-state unit
with the attempt counter in [0,5]: either all three OTP fields are absent
(counter 0), or code and expiry are both set and the counter is at most 5. -/
theorem otp_tristate_preserved (store : Store) (op : AuthOp)
    (h : ∀ v ∈ store, otpTriStateLe v) :
    ∀ v ∈ applyOp store op, otpTriStateLe v := by
  rcases applyOp_shape store op with hA | ⟨p, f, u, hfind, hrepl, _, _, hotp⟩ | ⟨u, happ, hu, _⟩
  · rw [hA]; exact h
  · intro v hv
    rw [hrepl] at hv
    rcases mem_replaceFirst_find hfind hv with h1 | rfl
    · exact h v h1
    · exact hotp (h u (List.mem_of_find?_eq_some hfind))
  · intro v hv
    rw [happ] at hv
    rcases List.mem_append.mp hv with h1 | h1
    · exact h v h1
    · rw [List.mem_singleton.mp h1]
      exact hu

/-- C5 witness. -/
theorem otp_tristate_preserved_witness :
    otpTriStateLe { c5user with otp_attempts := 5 } :=
  otp_tristate_preserved [c5user] (AuthOp.verifyOp 1 "222222".data 500) (by decide)
    { c5user with otp_attempts := 5 } (by decide)

/-! ### C9 — monotonicity of is_verified -/

/-- Freshness of the id a register call would assign (the autoincrement
discipline of the store). -/
def freshIdOk (store : Store) : AuthOp → Prop
  | .regOp _ _ _ newId _ => ∀ v ∈ store, v.id ≠ newId
  | _ => True

/-- C9: no operation of the core resets `is_verified` from true to false:
in a store with distinct ids, any record that was verified stays verified
in every record carrying its id after the operation. -/
theorem is_verified_monotone (store : Store) (op : AuthOp)
    (hnodup : (store.map User.id).Nodup) (hfresh : freshIdOk store op)
    (tu : User) (htu : tu ∈ store) (hver : tu.is_verified = true) :
    ∀ v ∈ applyOp store op, v.id = tu.id → v.is_verified = true := by
  have hinj := List.inj_on_of_nodup_map hnodup
  rcases applyOp_shape store op with hA | ⟨p, f, u, hfind, hrepl, hid, hverf, _⟩ |
    ⟨u, happ, _, hu⟩
  · rw [hA]
    intro v hv hveq
    rw [hinj hv htu hveq]
    exact hver
  · intro v hv hveq
    rw [hrepl] at hv
    rcases mem_replaceFirst_find hfind hv with h1 | rfl
    · rw [hinj h1 htu hveq]
      exact hver
    · have hpu : p u = true := List.find?_some hfind
      have hidu : (f u).id = u.id := hid u hpu
      have humem : u ∈ store := List.mem_of_find?_eq_some hfind
      have huu : u = tu := hinj humem htu (by rw [← hidu]; exact hveq)
      subst huu
      exact hverf hver
  · intro v hv hveq
    rw [happ] at hv
    rcases List.mem_append.mp hv with h1 | h1
    · rw [hinj h1 htu hveq]
      exact hver
    · have hvu : v = u := List.mem_singleton.mp h1
      subst hvu
      rcases hu with h2 | ⟨d, seed, now2, es, hop⟩
      · exact h2
      · subst hop
        simp only [freshIdOk] at hfresh
        exact absurd hveq.symm (hfresh tu htu)

def c9user : User :=
  { id := 1, email := "a@students.kcau.ac.ke".data, username := "alice".data,
    is_verified := true }

/-- C9 witness. -/
theorem is_verified_monotone_witness :
    (clear_otp c9user).is_verified = true :=
  is_verified_monotone [c9user] (AuthOp.clearOp 1) (by decide) True.intro c9user
    (by decide) (by decide) (clear_otp c9user) (by decide) (by decide)

/-! ### C6 — federated login is idempotent -/

/-- C6: when an account with the asserted Google id exists, federated login
returns that account, twice in a row, without changing the number of stored
accounts, and every stored profile picture (in particular that account's) is
preserved. -/
theorem google_login_idempotent (store : Store) (info : GoogleInfo) (u : User)
    (hu : find_by_google_id store info.sub = some u) (now1 now2 nid1 nid2 : Nat) :
    (google_auth store (some info) now1 nid1).1 = .success u.id ∧
    (google_auth store (some info) now1 nid1).2.length = store.length ∧
    (google_auth (google_auth store (some info) now1 nid1).2 (some info) now2 nid2).1 =
      .success u.id ∧
    (google_auth (google_auth store (some info) now1 nid1).2 (some info) now2 nid2).2.length
      = store.length ∧
    (google_auth store (some info) now1 nid1).2.map User.profile_picture =
      store.map User.profile_picture := by
  have hfind0 : store.find? (fun w => decide (w.google_id = some info.sub)) = some u := hu
  have hp := List.find?_some hfind0
  have h1 : google_auth store (some info) now1 nid1 =
      (GoogleResult.success u.id,
       replaceFirst (fun w => decide (w.google_id = some info.sub))
         (fun w => { w with last_login := some now1 }) store) := by
    simp only [google_auth, hu]
  have hp2 : (fun w => decide (w.google_id = some info.sub))
      { u with last_login := some now1 } = true := hp
  have hfind2 : find_by_google_id
      (replaceFirst (fun w => decide (w.google_id = some info.sub))
        (fun w => { w with last_login := some now1 }) store) info.sub
      = some { u with last_login := some now1 } :=
    find?_replaceFirst _ _ store u hu hp2
  have h2 : google_auth (replaceFirst (fun w => decide (w.google_id = some info.sub))
        (fun w => { w with last_login := some now1 }) store) (some info) now2 nid2 =
      (GoogleResult.success u.id,
       replaceFirst (fun w => decide (w.google_id = some info.sub))
         (fun w => { w with last_login := some now2 })
         (replaceFirst (fun w => decide (w.google_id = some info.sub))
           (fun w => { w with last_login := some now1 }) store)) := by
    simp only [google_auth, hfind2]
  refine ⟨?_, ?_, ?_, ?_, ?_⟩
  · rw [h1]
  · rw [h1]
    exact replaceFirst_length _ _ _
  · simp only [h1]
    rw [h2]
  · simp only [h1, h2, replaceFirst_length]
  · simp only [h1]
    exact map_replaceFirst _ _ _ _ (fun w => rfl)

def c6user : User :=
  { id := 7, email := "bob@gmail.com".data, username := "bob".data,
    google_id := some "gid123".data, profile_picture := some "p.png".data,
    is_verified := true }

def c6info : GoogleInfo :=
  { sub := "gid123".data, email := "bob@gmail.com".data, given_name := "B".data,
    family_name := "O".data, picture := "q.png".data }

/-- C6 witness. -/
theorem google_login_idempotent_witness :
    (google_auth [c6user] (some c6info) 11 99).1 = .success c6user.id ∧
    (google_auth [c6user] (some c6info) 11 99).2.length = [c6user].length ∧
    (google_auth (google_auth [c6user] (some c6info) 11 99).2 (some c6info) 12 100).1 =
      .success c6user.id ∧
    (google_auth (google_auth [c6user] (some c6info) 11 99).2 (some c6info) 12 100).2.length
      = [c6user].length ∧
    (google_auth [c6user] (some c6info) 11 99).2.map User.profile_picture =
      [c6user].map User.profile_picture :=
  google_login_idempotent [c6user] c6info c6user (by decide) 11 12 99 100

/-! ### C7 — username collision resolution -/

theorem usernameCandidate_inj (base : Str) : Function.Injective (usernameCandidate base) := by
  intro j k h
  unfold usernameCandidate at h
  by_cases hj : j = 0 <;> by_cases hk : k = 0
  · rw [hj, hk]
  · rw [if_pos hj, if_neg hk] at h
    have hlen := congrArg List.length h
    simp only [List.length_append] at hlen
    have h0 : (natDigits k).length = 0 := by omega
    exact absurd (List.length_eq_zero.mp h0) (natDigits_ne_nil k)
  · rw [if_neg hj, if_pos hk] at h
    have hlen := congrArg List.length h
    simp only [List.length_append] at hlen
    have h0 : (natDigits j).length = 0 := by omega
    exact absurd (List.length_eq_zero.mp h0) (natDigits_ne_nil j)
  · rw [if_neg hj, if_neg hk] at h
    exact natDigits_inj (List.append_cancel_left h)

theorem exists_free_candidate (store : Store) (base : Str) :
    ∃ j, j ≤ store.length ∧
      find_by_username store (usernameCandidate base j) = none := by
  by_contra hc
  push_neg at hc
  have hmem : ∀ j, j ≤ store.length →
      usernameCandidate base j ∈ store.map User.username := by
    intro j hj
    rcases ho : find_by_username store (usernameCandidate base j) with _ | u
    · exact absurd ho (hc j hj)
    · have hfind : store.find?
          (fun w => decide (w.username = usernameCandidate base j)) = some u := ho
      have humem := List.mem_of_find?_eq_some hfind
      have hpe := List.find?_some hfind
      have heq : u.username = usernameCandidate base j := of_decide_eq_true hpe
      exact heq ▸ List.mem_map_of_mem User.username humem
  have hnodup : ((List.range (store.length + 1)).map (usernameCandidate base)).Nodup :=
    (List.nodup_range _).map (usernameCandidate_inj base)
  have hsub : (List.range (store.length + 1)).map (usernameCandidate base)
      ⊆ store.map User.username := by
    intro x hx
    rcases List.mem_map.mp hx with ⟨j, hj, rfl⟩
    exact hmem j (by have := List.mem_range.mp hj; omega)
  have hlen := (hnodup.subperm hsub).length_le
  simp only [List.length_map, List.length_range] at hlen
  omega

theorem resolveUsernameAux_spec (store : Store) (base : Str) :
    ∀ fuel counter,
      (∃ j, counter ≤ j ∧ j < counter + fuel ∧
        find_by_username store (usernameCandidate base j) = none) →
      ∃ k, counter ≤ k ∧
        resolveUsernameAux store base fuel counter = usernameCandidate base k ∧
        find_by_username store (usernameCandidate base k) = none ∧
        ∀ j, counter ≤ j → j < k →
          (find_by_username store (usernameCandidate base j)).isSome = true := by
  intro fuel
  induction fuel with
  | zero =>
    intro counter h
    obtain ⟨j, hj1, hj2, _⟩ := h
    omega
  | succ fuel ih =>
    intro counter h
    obtain ⟨j, hj1, hj2, hjfree⟩ := h
    by_cases htaken : (find_by_username store (usernameCandidate base counter)).isSome = true
    · have hne : j ≠ counter := by
        intro he
        rw [he] at hjfree
        rw [hjfree] at htaken
        exact Bool.noConfusion htaken
      obtain ⟨k, hk1, hk2, hk3, hk4⟩ := ih (counter + 1) ⟨j, by omega, by omega, hjfree⟩
      refine ⟨k, by omega, ?_, hk3, ?_⟩
      · simp only [resolveUsernameAux, htaken, if_true]
        exact hk2
      · intro j2 hj2a hj2b
        by_cases hj2c : j2 = counter
        · rw [hj2c]; exact htaken
        · exact hk4 j2 (by omega) hj2b
    · refine ⟨counter, Nat.le_refl _, ?_, ?_, ?_⟩
      · simp [resolveUsernameAux, htaken]
      · rcases ho : find_by_username store (usernameCandidate base counter) with _ | u
        · rfl
        · rw [ho] at htaken
          exact absurd rfl htaken
      · intro j2 h1 h2
        omega

/-- C7: for every finite store, the username-collision loop terminates within
its fuel and returns the first free candidate of the sequence `base`,
`base1`, `base2`, ...: the chosen candidate is free in the store and every
earlier candidate is taken. -/
theorem username_collision_first_free (store : Store) (base : Str) :
    ∃ k, resolveUsername store base = usernameCandidate base k ∧
      find_by_username store (usernameCandidate base k) = none ∧
      ∀ j, j < k → (find_by_username store (usernameCandidate base j)).isSome = true := by
  obtain ⟨j, hj, hjf⟩ := exists_free_candidate store base
  obtain ⟨k, _, h2, h3, h4⟩ := resolveUsernameAux_spec store base (store.length + 1) 0
    ⟨j, by omega, by omega, hjf⟩
  exact ⟨k, h2, h3, fun j2 hj2 => h4 j2 (by omega) hj2⟩

/-! ### C8 — login case sensitivity -/

/-- C8: login depends on the submitted email only through its lower-cased,
stripped form, so any case variant of a registered email logs in exactly like
the stored one; the password is compared case-sensitively, so a password
differing from the stored one only in letter case fails with
`invalidCredentials`. -/
theorem login_case_sensitivity :
    (∀ (store : Store) (e1 e2 p : Str) (now : Nat),
        e1.isEmpty = false → e2.isEmpty = false →
        strip (lowerStr e1) = strip (lowerStr e2) →
        login store e1 p now = login store e2 p now) ∧
    (∀ (store : Store) (u : User) (e p q : Str) (now : Nat),
        e.isEmpty = false → q.isEmpty = false →
        validate_email (strip (lowerStr e)) = true →
        find_by_email store (strip (lowerStr e)) = some u →
        u.password_hash = some (generate_password_hash p) →
        lowerStr q = lowerStr p → q ≠ p →
        login store e q now = (.invalidCredentials, store)) := by
  constructor
  · intro store e1 e2 p now h1 h2 hs
    simp only [login, h1, h2]
    rw [hs]
  · intro store u e p q now he hq hv hfind hhash hlc hne
    have hne2 : p ≠ q := fun hh => hne hh.symm
    simp [login, he, hq, hv, hfind, User.check_password, check_password_hash, hhash,
      generate_password_hash, hne2]

def c8user : User :=
  { id := 2, email := "a@students.kcau.ac.ke".data, username := "al".data,
    password_hash := some "Secret12".data, is_verified := true }

/-- C8 witness. -/
theorem login_case_sensitivity_witness :
    login [c8user] "A@STUDENTS.KCAU.AC.KE".data "Secret12".data 5 =
      login [c8user] "a@students.kcau.ac.ke".data "Secret12".data 5 ∧
    login [c8user] "a@students.kcau.ac.ke".data "sECRET12".data 5 =
      (.invalidCredentials, [c8user]) :=
  ⟨login_case_sensitivity.1 [c8user] "A@STUDENTS.KCAU.AC.KE".data
      "a@students.kcau.ac.ke".data "Secret12".data 5 (by decide) (by decide) (by decide),
   login_case_sensitivity.2 [c8user] c8user "a@students.kcau.ac.ke".data "Secret12".data
      "sECRET12".data 5 (by decide) (by decide) (by decide) (by decide) (by decide)
      (by decide) (by decide)⟩

/-! ### C10 — login against a federated-only account raises -/

/-- C10: for an account with no password hash (federated-only), login with
its email and any password does not produce the 401 `invalidCredentials`
signal: the hash check raises and the generic handler answers 500
(`serverError`, the `Login failed` response). -/
theorem login_missing_hash_500 (store : Store) (u : User) (e p : Str) (now : Nat)
    (he : e.isEmpty = false) (hp : p.isEmpty = false)
    (hv : validate_email (strip (lowerStr e)) = true)
    (hfind : find_by_email store (strip (lowerStr e)) = some u)
    (hhash : u.password_hash = none) :
    login store e p now = (.serverError, store) ∧
    login store e p now ≠ (.invalidCredentials, store) := by
  have h1 : login store e p now = (.serverError, store) := by
    simp [login, he, hp, hv, hfind, User.check_password, check_password_hash, hhash]
  refine ⟨h1, ?_⟩
  rw [h1]
  simp

def c10user : User :=
  { id := 3, email := "bob@gmail.com".data, username := "bob".data,
    password_hash := none, google_id := some "g9".data, is_verified := true }

/-- C10 witness. -/
theorem login_missing_hash_500_witness :
    login [c10user] "bob@gmail.com".data "whatever1".data 5 = (.serverError, [c10user]) ∧
    login [c10user] "bob@gmail.com".data "whatever1".data 5 ≠
      (.invalidCredentials, [c10user]) :=
  login_missing_hash_500 [c10user] c10user "bob@gmail.com".data "whatever1".data 5
    (by decide) (by decide) (by decide) (by decide) (by decide)

end MySchool

